import Mathlib

/-!
Verification of the silvia-pid-config-webapp firmware (`main.py`).

Shallow embedding of the parts of the program the specification claims
talk about: the serial protocol client (`send_command`), the status
parser (`parse_status`), the schedule engine (`is_dst`,
`get_timezone_offset`, `get_local_hour`, `is_wifi_hours`) and the HTTP
route dispatch of `web_server_scheduled`, followed by theorems settling
the claims.

Lines are modelled as already-decoded, already-stripped text (the
transport yields newline-terminated text lines); Python `float`/`int`
conversion is modelled on the plain decimal literals this wire protocol
carries (optional sign, digits, optional fractional part — no exponent,
no embedded whitespace); clock reads are determinized into explicit
`(year, month, day, utc_hour)` arguments.
-/

/-- Python `str.split(sep)` for a one-character separator: splits on every
occurrence, keeps empty chunks, always returns at least one chunk. -/
def splitOnChar (sep : Char) : List Char → List (List Char)
  | [] => [[]]
  | c :: rest =>
    if c = sep then [] :: splitOnChar sep rest
    else
      match splitOnChar sep rest with
      | [] => [[c]]
      | h :: t => (c :: h) :: t

/-- Whitespace characters removed by Python `str.strip()`. -/
def isPySpace (c : Char) : Bool :=
  c = ' ' || c = '\t' || c = '\n' || c = '\r' || c = '\x0b' || c = '\x0c'

/-- Python `str.strip()`: drop leading and trailing whitespace. -/
def pyStrip (s : String) : String :=
  String.mk (((s.data.dropWhile isPySpace).reverse.dropWhile isPySpace).reverse)

/-- Value of a run of decimal digits; `none` when a non-digit appears.
An empty run evaluates to 0 — callers enforce nonemptiness where Python does. -/
def digitsVal? (l : List Char) : Option ℕ :=
  if l.all Char.isDigit then some (l.foldl (fun acc c => acc * 10 + (c.toNat - 48)) 0)
  else none

/-- Unsigned part of Python `float()` on a plain decimal literal:
digits with an optional single point (`"42"`, `"93.4"`, `"1."`, `".5"`). -/
def pyFloatCore (l : List Char) : Option ℚ :=
  match splitOnChar '.' l with
  | [ip] =>
    if ip = [] then none else (digitsVal? ip).map (fun n => (n : ℚ))
  | [ip, fp] =>
    if ip = [] ∧ fp = [] then none
    else
      match digitsVal? ip, digitsVal? fp with
      | some a, some b => some ((a : ℚ) + (b : ℚ) / (10 : ℚ) ^ fp.length)
      | _, _ => none
  | _ => none

/-- Python `float()` on the decimal literals the wire protocol carries. -/
def pyFloat (s : String) : Option ℚ :=
  match s.data with
  | '-' :: rest => (pyFloatCore rest).map (fun q => -q)
  | '+' :: rest => pyFloatCore rest
  | l => pyFloatCore l

/-- Unsigned part of Python `int()`: a nonempty run of digits only
(so `int("108.0")` fails with `ValueError`, modelled as `none`). -/
def pyIntCore (l : List Char) : Option ℤ :=
  if l = [] then none else (digitsVal? l).map (fun n => (n : ℤ))

/-- Python `int()` on the integer literals the wire protocol carries. -/
def pyInt (s : String) : Option ℤ :=
  match s.data with
  | '-' :: rest => (pyIntCore rest).map (fun z => -z)
  | '+' :: rest => pyIntCore rest
  | l => pyIntCore l

/-- Boolean list-prefix test. -/
def isPrefixList : List Char → List Char → Bool
  | [], _ => true
  | _ :: _, [] => false
  | a :: as, b :: bs => a = b && isPrefixList as bs

/-- Python `str.startswith`. -/
def startsWithStr (p s : String) : Bool := isPrefixList p.data s.data

/-- Python `str.replace(ab, "")` for a two-character pattern `ab`:
left-to-right, non-overlapping removal of every occurrence. -/
def removePairAll (a b : Char) : List Char → List Char
  | [] => []
  | [c] => [c]
  | c :: d :: rest =>
    if c = a && d = b then removePairAll a b rest
    else c :: removePairAll a b (d :: rest)

/-- `line.replace(">>", "")` from `parse_status` (main.py line 462). -/
def removeGtGt (s : String) : String := String.mk (removePairAll '>' '>' s.data)

/-- String-level wrapper for `splitOnChar`. -/
def splitOnCharStr (sep : Char) (s : String) : List String :=
  (splitOnChar sep s.data).map String.mk

/-- First element of Python `request.split('\r\n')`: the characters up to
the first CRLF (the whole input when no CRLF occurs). -/
def takeUntilCRLF : List Char → List Char
  | [] => []
  | [c] => [c]
  | c :: d :: rest =>
    if c = '\r' && d = '\n' then [] else c :: takeUntilCRLF (d :: rest)

/-- Python `request.find('\r\n\r\n')` followed by `request[i+4:]`: the text
after the first blank-line header/body separator, `none` when
`find` returns -1 (main.py lines 868-870). -/
def bodyAfterSep : List Char → Option (List Char)
  | c1 :: c2 :: c3 :: c4 :: rest =>
    if c1 = '\r' && c2 = '\n' && c3 = '\r' && c4 = '\n' then some rest
    else bodyAfterSep (c2 :: c3 :: c4 :: rest)
  | _ => none

/-- The dict returned by `send_command` (main.py lines 333-337). -/
structure ExchResult where
  success : Bool
  response : List String
  error : Option String
  deriving DecidableEq, Repr

/-- The read loop of `send_command` (main.py lines 369-400): consume the
lines available before the timeout in order, accumulating every line and
stopping at the first line that starts with `<<OK` or `<<ERROR`; returns
the accumulated lines and the `found_completion` flag.  A finite input
list models exactly the lines the transport delivers before the timeout
elapses; exhausting it without a completion token is the timeout case. -/
def readAcc : List String → List String × Bool
  | [] => ([], false)
  | l :: rest =>
    if startsWithStr "<<OK" l || startsWithStr "<<ERROR" l then ([l], true)
    else (l :: (readAcc rest).1, (readAcc rest).2)

/-- Accumulated `response_lines` of one read loop. -/
def readResponseLines (avail : List String) : List String := (readAcc avail).1

/-- The `found_completion` flag of one read loop. -/
def foundCompletion (avail : List String) : Bool := (readAcc avail).2

/-- Filter predicate of main.py lines 409-412: command-response lines are
those starting with `<<` or `>>`. -/
def isCmdResp (l : String) : Bool := startsWithStr "<<" l || startsWithStr ">>" l

/-- Error-token test of main.py line 426. -/
def isErrLine (l : String) : Bool := startsWithStr "<<ERROR" l

/-- Classification phase of `send_command` (main.py lines 402-431): the
no-response check, the telemetry filter with its degrade-to-unfiltered
rule, the timeout classification, and the `<<ERROR` override scan. -/
def readClassify (avail : List String) : ExchResult :=
  if readResponseLines avail = [] then
    { success := false, response := [], error := some "No response received" }
  else
    match ((readResponseLines avail).filter isCmdResp).find? isErrLine with
    | some e =>
      { success := false,
        response :=
          if (readResponseLines avail).filter isCmdResp = [] then readResponseLines avail
          else (readResponseLines avail).filter isCmdResp,
        error := some e }
    | none =>
      { success := foundCompletion avail,
        response :=
          if (readResponseLines avail).filter isCmdResp = [] then readResponseLines avail
          else (readResponseLines avail).filter isCmdResp,
        error := if foundCompletion avail then none else some "Response incomplete (timeout)" }

/-- The drain loop `while uart.any(): uart.read()` of main.py line 352:
discards every byte buffered on the transport, leaving nothing. -/
def flushAll : List String → List String
  | [] => []
  | _ :: rest => flushAll rest

/-- Observable transport operations of one serial exchange, for stating
ordering properties. -/
inductive SerialOp
  | flushBuf
  | transmit
  | readLoop
  deriving DecidableEq, BEq, Repr

/-- `send_command` (main.py lines 321-431) over a determinized transport:
`buffered` is what sits unread on the UART when the call starts and
`incoming` the lines the remote emits afterwards (before the timeout).
Returns the result dict together with the ordered trace of transport
operations performed: the empty-command guard returns before touching the
transport; otherwise the RX buffer is drained (line 352), the command
transmitted (line 356), and the read loop run over whatever the
transport now yields (lines 369-400). -/
def send_command (cmd : String) (buffered incoming : List String) :
    ExchResult × List SerialOp :=
  if pyStrip cmd = "" then
    ({ success := false, response := [], error := some "Empty command" }, [])
  else
    let remaining := flushAll buffered
    let log1 := [SerialOp.flushBuf]
    let log2 := log1 ++ [SerialOp.transmit]
    let r := readClassify (remaining ++ incoming)
    let log3 := log2 ++ [SerialOp.readLoop]
    (r, log3)

/-- The dict built by `parse_status` (main.py lines 465-471 / 483-489). -/
structure StatusDict where
  temperature : ℚ
  setpoint : ℚ
  duty_cycle : ℤ
  state : String
  raw : String
  deriving DecidableEq, Repr

/-- One iteration of the legacy-format loop of `parse_status` (main.py
lines 459-473): a line starting with `>>STATUS` or `STATUS` has its `>>`
occurrences removed and is split on commas; with at least 5 fields,
`parts[1]` is the temperature (float), `parts[2]` the setpoint (float),
`parts[3]` the duty cycle (int) and `parts[4]` the state; a failed
conversion (Python `ValueError`) abandons the line. -/
def tryStatusLine (line : String) : Option StatusDict :=
  if startsWithStr ">>STATUS" line || startsWithStr "STATUS" line then
    let parts := splitOnCharStr ',' (removeGtGt line)
    if 5 ≤ parts.length then
      match pyFloat (parts.getD 1 ""), pyFloat (parts.getD 2 ""), pyInt (parts.getD 3 "") with
      | some t, some sp, some du =>
        some { temperature := t, setpoint := sp, duty_cycle := du,
               state := parts.getD 4 "", raw := line }
      | _, _, _ => none
    else none
  else none

/-- The legacy-format loop of `parse_status`: first line that parses wins;
lines that fail the prefix test, the field count or a conversion are
skipped. -/
def tryStatusLines : List String → Option StatusDict
  | [] => none
  | l :: rest =>
    match tryStatusLine l with
    | some st => some st
    | none => tryStatusLines rest

/-- The unprefixed-CSV fallback of `parse_status` (main.py lines 477-491):
the given line split on commas must have at least 3 fields, read as
`temperature (float), duty_cycle (int), setpoint (float)` with state
`"unknown"`. -/
def csvFallback (line : String) : Option StatusDict :=
  let parts := splitOnCharStr ',' line
  if 3 ≤ parts.length then
    match pyFloat (parts.getD 0 ""), pyInt (parts.getD 1 ""), pyFloat (parts.getD 2 "") with
    | some t, some du, some sp =>
      some { temperature := t, setpoint := sp, duty_cycle := du,
             state := "unknown", raw := line }
    | _, _, _ => none
  else none

/-- `parse_status` (main.py lines 442-493): empty response parses to
nothing; otherwise the legacy STATUS loop is tried over every line, then
the last accumulated line is tried as unprefixed CSV, then the result is
`none`. -/
def parse_status (response_dict : ExchResult) : Option StatusDict :=
  match response_dict.response with
  | [] => none
  | l :: ls =>
    match tryStatusLines (l :: ls) with
    | some st => some st
    | none => csvFallback ((l :: ls).getLast (List.cons_ne_nil l ls))

/-- `WIFI_START_HOUR` (main.py line 48). -/
def WIFI_START_HOUR : ℕ := 5

/-- `WIFI_END_HOUR` (main.py line 49). -/
def WIFI_END_HOUR : ℕ := 8

/-- `BASE_TIMEZONE_OFFSET` (main.py line 50): PST, UTC-8. -/
def BASE_TIMEZONE_OFFSET : ℤ := -8

/-- Sakamoto month offsets for the Gregorian day-of-week computation. -/
def sakamotoTable : List ℕ := [0, 3, 2, 5, 0, 3, 5, 1, 4, 6, 2, 4]

/-- Gregorian day of week, 0 = Sunday, by Sakamoto's method. -/
def dayOfWeekSun0 (year month day : ℕ) : ℕ :=
  let y := if month < 3 then year - 1 else year
  (y + y / 4 - y / 100 + y / 400 + sakamotoTable.getD (month - 1) 0 + day) % 7

/-- Modelled from the runtime: `time.localtime(time.mktime((year, month,
day, 0,0,0,0,0,0)))[6]` (main.py lines 79-80) is the Gregorian day of
week with Monday = 0, Python `struct_time` convention. -/
def pyWeekday (year month day : ℕ) : ℕ :=
  (dayOfWeekSun0 year month day + 6) % 7

/-- `first_weekday` of `get_nth_weekday_of_month` (main.py line 80):
day of week of the first of the month, Monday = 0. -/
def first_weekday (year month : ℕ) : ℕ := pyWeekday year month 1

/-- `get_nth_weekday_of_month` (main.py lines 71-87): day of month of the
nth occurrence of the given weekday (Python ints; `%` on ℤ is Euclidean,
as in Python for a positive modulus). -/
def get_nth_weekday_of_month (year month : ℕ) (weekday n : ℤ) : ℤ :=
  let days_until_weekday := (weekday - (first_weekday year month : ℤ)) % 7
  1 + days_until_weekday + (n - 1) * 7

/-- `is_dst` (main.py lines 89-106): DST from the second Sunday of March
through (exclusive) the first Sunday of November. -/
def is_dst (year month : ℕ) (day : ℤ) : Bool :=
  let dst_start_day := get_nth_weekday_of_month year 3 6 2
  let dst_end_day := get_nth_weekday_of_month year 11 6 1
  if month < 3 ∨ 11 < month then false
  else if 3 < month ∧ month < 11 then true
  else if month = 3 then decide (dst_start_day ≤ day)
  else decide (day < dst_end_day)

/-- `get_timezone_offset` (main.py lines 108-116), determinized over the
date read from the clock. -/
def get_timezone_offset (year month : ℕ) (day : ℤ) : ℤ :=
  if is_dst year month day then BASE_TIMEZONE_OFFSET + 1 else BASE_TIMEZONE_OFFSET

/-- `get_local_hour` (main.py lines 154-159), determinized over the UTC
time read from the clock. -/
def get_local_hour (year month : ℕ) (day utc_hour : ℤ) : ℤ :=
  (utc_hour + get_timezone_offset year month day) % 24

/-- Window logic of `is_wifi_hours` (main.py lines 169-181), with the
configured window lifted to parameters (the code reads the module
constants `WIFI_START_HOUR` / `WIFI_END_HOUR`). -/
def is_wifi_hours (start_hour end_hour hour : ℕ) : Bool :=
  if end_hour ≤ start_hour then decide (start_hour ≤ hour) || decide (hour < end_hour)
  else decide (start_hour ≤ hour) && decide (hour < end_hour)

/-- `is_wifi_hours` as the code runs it: configured window applied to the
current local hour. -/
def is_wifi_hours_at (year month : ℕ) (day utc_hour : ℤ) : Bool :=
  is_wifi_hours WIFI_START_HOUR WIFI_END_HOUR (get_local_hour year month day utc_hour).toNat

/-- JSON values appearing in the server's responses. -/
inductive JsonVal
  | null
  | jnum (q : ℚ)
  | jint (z : ℤ)
  | jstr (s : String)
  | jbool (b : Bool)
  | jarr (l : List String)
  deriving DecidableEq, Repr

/-- Body of the `GET /status` reply (main.py lines 855-860): the parsed
status dict when parsing succeeded, else the fixed fallback object. -/
def statusJson (st : Option StatusDict) : List (String × JsonVal) :=
  match st with
  | some s =>
    [("temperature", JsonVal.jnum s.temperature), ("setpoint", JsonVal.jnum s.setpoint),
     ("duty_cycle", JsonVal.jint s.duty_cycle), ("state", JsonVal.jstr s.state),
     ("raw", JsonVal.jstr s.raw)]
  | none =>
    [("temperature", JsonVal.null), ("setpoint", JsonVal.jint 0),
     ("duty_cycle", JsonVal.jint 0), ("state", JsonVal.jstr "unknown")]

/-- The `GET /status` route (main.py lines 847-865): issue `status` over
the serial client, parse, and reply HTTP 200 with the JSON body. -/
def status_route (buffered incoming : List String) : ℕ × List (String × JsonVal) :=
  (200, statusJson (parse_status (send_command "status" buffered incoming).1))

/-- What the server writes back on one connection: the HTML payload
(whose content is opaque to the core) or a JSON reply. -/
inductive ServerReply
  | htmlPage
  | jsonReply (code : ℕ) (body : List (String × JsonVal))
  deriving DecidableEq, Repr

/-- Observable outcome of handling one HTTP request: what reply (if any)
was written before the connection closed, and which serial commands were
executed while handling it. -/
structure HandleOutcome where
  reply : Option ServerReply
  serialCommands : List String
  deriving DecidableEq, Repr

/-- `request.split('\r\n')[0].split(' ')` (main.py lines 822-826). -/
def partsOf (request : String) : List String :=
  (splitOnChar ' ' (takeUntilCRLF request.data)).map String.mk

/-- Route dispatch of `web_server_scheduled` for one received request
(main.py lines 822-903): `GET /` serves the HTML payload, `GET /status`
runs the status route, `POST /cmd` extracts the body after the first
blank-line separator and executes it (closing silently when the
separator is absent), and any other request line falls through with no
response written before the connection is closed. -/
def handle_request (request : String) (buffered incoming : List String) : HandleOutcome :=
  match partsOf request with
  | method :: path :: _ =>
    if method = "GET" ∧ path = "/" then
      { reply := some ServerReply.htmlPage, serialCommands := [] }
    else if method = "GET" ∧ path = "/status" then
      { reply := some (ServerReply.jsonReply (status_route buffered incoming).1
          (status_route buffered incoming).2),
        serialCommands := ["status"] }
    else if method = "POST" ∧ path = "/cmd" then
      match bodyAfterSep request.data with
      | some bodyChars =>
        let command := pyStrip (String.mk bodyChars)
        let r := (send_command command buffered incoming).1
        { reply := some (ServerReply.jsonReply 200
            [("success", JsonVal.jbool r.success), ("response", JsonVal.jarr r.response)]),
          serialCommands := [command] }
      | none => { reply := none, serialCommands := [] }
    else { reply := none, serialCommands := [] }
  | _ => { reply := none, serialCommands := [] }

lemma flushAll_eq_nil (l : List String) : flushAll l = [] := by
  induction l with
  | nil => rfl
  | cons a t ih => exact ih

lemma readAcc_mem : ∀ {avail : List String} {l : String}, l ∈ (readAcc avail).1 → l ∈ avail := by
  intro avail
  induction avail with
  | nil => intro l h; simp [readAcc] at h
  | cons a t ih =>
    intro l h
    by_cases hc : (startsWithStr "<<OK" a || startsWithStr "<<ERROR" a) = true
    · simp [readAcc, hc] at h
      simp [h]
    · simp only [Bool.not_eq_true] at hc
      simp [readAcc, hc] at h
      rcases h with h | h
      · simp [h]
      · exact List.mem_cons_of_mem a (ih h)

lemma readAcc_fst_nil {avail : List String} (h : (readAcc avail).1 = []) : avail = [] := by
  cases avail with
  | nil => rfl
  | cons a t =>
    by_cases hc : (startsWithStr "<<OK" a || startsWithStr "<<ERROR" a) = true
    · simp [readAcc, hc] at h
    · simp only [Bool.not_eq_true] at hc
      simp [readAcc, hc] at h

lemma foundCompletion_of_nil {avail : List String} (h : readResponseLines avail = []) :
    foundCompletion avail = false := by
  have : avail = [] := readAcc_fst_nil h
  subst this
  rfl

lemma readAcc_not_found_no_err :
    ∀ {avail : List String}, (readAcc avail).2 = false →
      ∀ l ∈ (readAcc avail).1, isErrLine l = false := by
  intro avail
  induction avail with
  | nil => intro _ l hl; simp [readAcc] at hl
  | cons a t ih =>
    intro h l hl
    by_cases hc : (startsWithStr "<<OK" a || startsWithStr "<<ERROR" a) = true
    · simp [readAcc, hc] at h
    · simp only [Bool.not_eq_true] at hc
      simp [readAcc, hc] at h hl
      rcases hl with hl | hl
      · subst hl
        have := (Bool.or_eq_false_iff.mp hc).2
        simpa [isErrLine] using this
      · exact ih h l hl

lemma send_command_fst (cmd : String) (b i : List String) (hcmd : ¬ pyStrip cmd = "") :
    (send_command cmd b i).1 = readClassify i := by
  simp [send_command, hcmd, flushAll_eq_nil]

lemma send_command_snd (cmd : String) (b i : List String) (hcmd : ¬ pyStrip cmd = "") :
    (send_command cmd b i).2 = [SerialOp.flushBuf, SerialOp.transmit, SerialOp.readLoop] := by
  simp [send_command, hcmd]

lemma readClassify_empty {avail : List String} (h : readResponseLines avail = []) :
    readClassify avail = { success := false, response := [], error := some "No response received" } := by
  simp [readClassify, h]

lemma readClassify_success_iff (avail : List String) :
    (readClassify avail).success = true ↔
      (foundCompletion avail = true ∧
        ∀ l ∈ (readResponseLines avail).filter isCmdResp, isErrLine l = false) := by
  by_cases hre : readResponseLines avail = []
  · have hfc := foundCompletion_of_nil hre
    simp [readClassify_empty hre, hfc]
  · cases hfind : ((readResponseLines avail).filter isCmdResp).find? isErrLine with
    | some e =>
      have he1 : isErrLine e = true := List.find?_some hfind
      have he2 : e ∈ (readResponseLines avail).filter isCmdResp :=
        List.mem_of_find?_eq_some hfind
      simp only [readClassify, hre, if_neg hre, hfind]
      constructor
      · intro h; exact absurd h (by simp)
      · rintro ⟨-, hall⟩
        exact absurd (hall e he2) (by simp [he1])
    | none =>
      have hall : ∀ l ∈ (readResponseLines avail).filter isCmdResp, isErrLine l = false := by
        intro l hl
        have := List.find?_eq_none.mp hfind l hl
        simpa using this
      simp only [readClassify, hre, if_neg hre, hfind]
      constructor
      · intro h; exact ⟨h, hall⟩
      · rintro ⟨h, -⟩; exact h

lemma readClassify_timeout {avail : List String} (h1 : ¬ readResponseLines avail = [])
    (h2 : foundCompletion avail = false) :
    (readClassify avail).success = false ∧
      (readClassify avail).error = some "Response incomplete (timeout)" := by
  have hfind : ((readResponseLines avail).filter isCmdResp).find? isErrLine = none := by
    rw [List.find?_eq_none]
    intro l hl
    have hl' : l ∈ (readAcc avail).1 := (List.mem_filter.mp hl).1
    have := readAcc_not_found_no_err h2 l hl'
    simp [this]
  simp [readClassify, h1, hfind, h2]

lemma readClassify_err {avail : List String} {e : String}
    (h1 : ¬ readResponseLines avail = [])
    (hfind : ((readResponseLines avail).filter isCmdResp).find? isErrLine = some e) :
    (readClassify avail).success = false ∧ (readClassify avail).error = some e := by
  simp [readClassify, h1, hfind]

/-- C2: for every command exchange (a nonempty trimmed command; empty
commands fail fast with `error="Empty command"` before any exchange),
the result has `success=true` iff a completion-token line (`<<OK` or
`<<ERROR`) was read and no line of the filtered response set starts with
`<<ERROR`; reading nothing before the timeout gives
`error="No response received"`; reading lines but no completion token
gives `error="Response incomplete (timeout)"`; a `<<ERROR` line in the
filtered set forces `success=false` with `error` equal to that line's
text, overriding the timeout classification. -/
theorem send_command_result_contract (cmd : String) (b i : List String)
    (hcmd : ¬ pyStrip cmd = "") :
    ((send_command cmd b i).1.success = true ↔
      (foundCompletion i = true ∧
        ∀ l ∈ (readResponseLines i).filter isCmdResp, isErrLine l = false))
    ∧ (readResponseLines i = [] →
        (send_command cmd b i).1 =
          { success := false, response := [], error := some "No response received" })
    ∧ (¬ readResponseLines i = [] → foundCompletion i = false →
        (send_command cmd b i).1.success = false ∧
          (send_command cmd b i).1.error = some "Response incomplete (timeout)")
    ∧ (∀ e, ((readResponseLines i).filter isCmdResp).find? isErrLine = some e →
        (send_command cmd b i).1.success = false ∧
          (send_command cmd b i).1.error = some e) := by
  rw [send_command_fst cmd b i hcmd]
  refine ⟨readClassify_success_iff i, fun h => readClassify_empty h, readClassify_timeout,
    fun e hfind => ?_⟩
  have h1 : ¬ readResponseLines i = [] := by
    intro h
    rw [h] at hfind
    simp at hfind
  exact readClassify_err h1 hfind

/-- C2 witness: the contract at the concrete exchange of spec section 8:
command `status` against a transport yielding `["<<OK"]` succeeds. -/
theorem send_command_result_contract_witness :
    (send_command "status" [] ["<<OK"]).1.success = true :=
  ((send_command_result_contract "status" [] ["<<OK"] (by decide)).1).mpr (by decide)

/-- C7: in a completed exchange the reported response is the sublist of
accumulated lines starting with `<<` or `>>` (order preserved by
`List.filter`), or the full unfiltered list when no line matches; for
accumulated lines `["T,91.2,0", "<<OK"]` the reported response is
`["<<OK"]` only. -/
theorem send_command_response_filter (cmd : String) (b i : List String)
    (hcmd : ¬ pyStrip cmd = "") (hne : ¬ readResponseLines i = []) :
    ((send_command cmd b i).1.response =
      if (readResponseLines i).filter isCmdResp = [] then readResponseLines i
      else (readResponseLines i).filter isCmdResp)
    ∧ (send_command "status" [] ["T,91.2,0", "<<OK"]).1.response = ["<<OK"] := by
  refine ⟨?_, by decide⟩
  rw [send_command_fst cmd b i hcmd]
  cases hfind : ((readResponseLines i).filter isCmdResp).find? isErrLine with
  | some e => simp [readClassify, hne, hfind]
  | none => simp [readClassify, hne, hfind]

/-- C7 witness: the filter contract applied to the interleaved-telemetry
exchange of spec section 8. -/
theorem send_command_response_filter_witness :
    (send_command "status" [] ["T,91.2,0", "<<OK"]).1.response = ["<<OK"] :=
  (send_command_response_filter "status" [] ["T,91.2,0", "<<OK"] (by decide) (by decide)).2

/-- C3: the bytes buffered on the transport when the exchange starts are
all discarded before anything is read: the result of an exchange does not
depend on the pre-buffered content at all, and every reported response
line comes from the lines that arrived after the exchange began. -/
theorem send_command_discards_prebuffered (cmd : String) (b i : List String) :
    (send_command cmd b i).1 = (send_command cmd [] i).1
    ∧ ∀ l ∈ (send_command cmd b i).1.response, l ∈ i := by
  by_cases hcmd : pyStrip cmd = ""
  · refine ⟨by simp [send_command, hcmd], ?_⟩
    intro l hl
    simp [send_command, hcmd] at hl
  · rw [send_command_fst cmd b i hcmd, send_command_fst cmd [] i hcmd]
    refine ⟨rfl, ?_⟩
    intro l hl
    by_cases hre : readResponseLines i = []
    · rw [readClassify_empty hre] at hl
      simp at hl
    · have hmem : l ∈ readResponseLines i := by
        cases hfind : ((readResponseLines i).filter isCmdResp).find? isErrLine with
        | some e =>
          simp only [readClassify, if_neg hre, hfind] at hl
          split at hl
          · exact hl
          · exact (List.mem_filter.mp hl).1
        | none =>
          simp only [readClassify, if_neg hre, hfind] at hl
          split at hl
          · exact hl
          · exact (List.mem_filter.mp hl).1
      exact readAcc_mem hmem

/-- C3 witness: with stale telemetry pre-buffered, the exchange still
reports only lines that arrived after it began. -/
theorem send_command_discards_prebuffered_witness :
    "<<OK" ∈ (["<<OK"] : List String) :=
  (send_command_discards_prebuffered "status" ["T,90.1,0", "stale"] ["<<OK"]).2 "<<OK" (by decide)

/-- C4 counterexample: the claim that the transmit strictly precedes the
buffer flush is false on the code — in the operation trace of a concrete
exchange the flush (main.py line 352) comes before the transmit
(line 356). -/
theorem send_command_transmit_not_before_flush :
    ¬ ((send_command "status" [] ["<<OK"]).2.indexOf SerialOp.transmit
        < (send_command "status" [] ["<<OK"]).2.indexOf SerialOp.flushBuf) := by
  decide

/-- C4 amended: within one serial exchange the buffer flush strictly
precedes the transmit (the buffer-flush-before-send rule), and the
transmit strictly precedes the read loop. -/
theorem send_command_flush_transmit_read_order (cmd : String) (b i : List String)
    (hcmd : ¬ pyStrip cmd = "") :
    (send_command cmd b i).2.indexOf SerialOp.flushBuf
        < (send_command cmd b i).2.indexOf SerialOp.transmit
    ∧ (send_command cmd b i).2.indexOf SerialOp.transmit
        < (send_command cmd b i).2.indexOf SerialOp.readLoop := by
  rw [send_command_snd cmd b i hcmd]
  decide

/-- C4 witness: the amended ordering at a concrete exchange. -/
theorem send_command_flush_transmit_read_order_witness :
    (send_command "reg on" [] []).2.indexOf SerialOp.flushBuf
      < (send_command "reg on" [] []).2.indexOf SerialOp.transmit :=
  (send_command_flush_transmit_read_order "reg on" [] [] (by decide)).1

/-- C5: for every window, when `start < end` the hour is in-window iff
`start <= hour < end` (so the start hour is active and the end hour is
not), and when `end <= start` iff `hour >= start` or `hour < end`, which
makes a window with `start == end` always active. -/
theorem is_wifi_hours_window_semantics (s e h : ℕ) :
    (s < e → (is_wifi_hours s e h = true ↔ (s ≤ h ∧ h < e)))
    ∧ (e ≤ s → (is_wifi_hours s e h = true ↔ (s ≤ h ∨ h < e)))
    ∧ (s < e → is_wifi_hours s e s = true)
    ∧ (s < e → is_wifi_hours s e e = false)
    ∧ (e = s → is_wifi_hours s e h = true) := by
  refine ⟨fun hlt => ?_, fun hle => ?_, fun hlt => ?_, fun hlt => ?_, fun heq => ?_⟩
  · rw [is_wifi_hours, if_neg (by omega)]
    simp
  · rw [is_wifi_hours, if_pos hle]
    simp
  · rw [is_wifi_hours, if_neg (by omega)]
    simp [hlt]
  · rw [is_wifi_hours, if_neg (by omega)]
    simp
  · subst heq
    rw [is_wifi_hours, if_pos le_rfl]
    simp
    omega

/-- C5 witness: the configured window (5, 8) is active at its start
hour 5. -/
theorem is_wifi_hours_window_semantics_witness : is_wifi_hours 5 8 5 = true :=
  ((is_wifi_hours_window_semantics 5 8 5).1 (by decide)).mpr (by decide)

/-- C6: the DST predicate is false before March and after November, true
for April through October, true in March exactly from the computed second
Sunday onward, true in November exactly before the computed first Sunday,
with the transition days given by the nth-weekday rule
`1 + ((target_weekday - first_weekday) mod 7) + (n-1)*7`. -/
theorem is_dst_transition_semantics (y : ℕ) (m : ℕ) (d : ℤ) (mo : ℕ) (w n : ℤ) :
    (m < 3 ∨ 11 < m → is_dst y m d = false)
    ∧ (4 ≤ m → m ≤ 10 → is_dst y m d = true)
    ∧ (m = 3 → (is_dst y m d = true ↔ get_nth_weekday_of_month y 3 6 2 ≤ d))
    ∧ (m = 11 → (is_dst y m d = true ↔ d < get_nth_weekday_of_month y 11 6 1))
    ∧ get_nth_weekday_of_month y mo w n =
        1 + (w - (first_weekday y mo : ℤ)) % 7 + (n - 1) * 7 := by
  refine ⟨fun h1 => ?_, fun h4 h10 => ?_, fun hm => ?_, fun hm => ?_, rfl⟩
  · rw [is_dst, if_pos h1]
  · rw [is_dst, if_neg (by omega), if_pos (by omega)]
  · subst hm
    rw [is_dst, if_neg (by omega), if_neg (by omega), if_pos rfl]
    simp
  · subst hm
    rw [is_dst, if_neg (by omega), if_neg (by omega), if_neg (by omega)]
    simp

/-- C6 witness: March 10, 2024 is the computed second Sunday of March
2024, so DST is active on it. -/
theorem is_dst_transition_semantics_witness : is_dst 2024 3 10 = true :=
  ((is_dst_transition_semantics 2024 3 10 0 0 1).2.2.1 rfl).mpr (by decide)

/-- C9: the effective timezone offset is always exactly the base offset
or the base offset plus one (the base offset being negative), and for
every UTC hour in 0..23 the computed local hour lies in 0..23, never
negative. -/
theorem effective_offset_local_hour_range (y m : ℕ) (d h : ℤ) :
    (get_timezone_offset y m d = BASE_TIMEZONE_OFFSET ∨
      get_timezone_offset y m d = BASE_TIMEZONE_OFFSET + 1)
    ∧ BASE_TIMEZONE_OFFSET < 0
    ∧ (0 ≤ h → h < 24 →
        0 ≤ get_local_hour y m d h ∧ get_local_hour y m d h < 24) := by
  refine ⟨?_, by decide, fun _ _ => ⟨?_, ?_⟩⟩
  · rw [get_timezone_offset]
    by_cases hd : is_dst y m d = true
    · simp [hd]
    · simp [hd]
  · exact Int.emod_nonneg _ (by norm_num)
  · exact Int.emod_lt_of_pos _ (by norm_num)

/-- C9 witness: midnight UTC on a PST (non-DST) date maps to local
hour 16, inside 0..23. -/
theorem effective_offset_local_hour_range_witness :
    0 ≤ get_local_hour 2025 1 15 0 ∧ get_local_hour 2025 1 15 0 < 24 :=
  (effective_offset_local_hour_range 2025 1 15 0).2.2 (by decide) (by decide)

/-- C8: every `GET /status` request is answered with HTTP 200 and a JSON
object carrying the fields temperature, setpoint, duty_cycle and state
(plus raw when parsing succeeded); when status parsing fails the body is
exactly the null/zero/unknown object — a parse failure never produces an
HTTP error status. -/
theorem status_route_contract (b i : List String) :
    (status_route b i).1 = 200
    ∧ ((status_route b i).2.map Prod.fst =
          ["temperature", "setpoint", "duty_cycle", "state", "raw"]
        ∨ (status_route b i).2.map Prod.fst =
          ["temperature", "setpoint", "duty_cycle", "state"])
    ∧ (parse_status (send_command "status" b i).1 = none →
        (status_route b i).2 =
          [("temperature", JsonVal.null), ("setpoint", JsonVal.jint 0),
           ("duty_cycle", JsonVal.jint 0), ("state", JsonVal.jstr "unknown")]) := by
  refine ⟨rfl, ?_, fun hp => ?_⟩
  · cases hp : parse_status (send_command "status" b i).1 with
    | none => right; simp [status_route, statusJson, hp]
    | some st => left; simp [status_route, statusJson, hp]
  · simp [status_route, statusJson, hp]

/-- C8 witness: with a transport that yields nothing, parsing fails and
the route still replies 200 with the fixed fallback body. -/
theorem status_route_contract_witness :
    (status_route [] []).2 =
      [("temperature", JsonVal.null), ("setpoint", JsonVal.jint 0),
       ("duty_cycle", JsonVal.jint 0), ("state", JsonVal.jstr "unknown")] :=
  (status_route_contract [] []).2.2 (by decide)

/-- C10: a `POST /cmd` request whose raw text has no blank-line
header/body separator executes no serial command and writes nothing back
— the same silent close as an unmatched route. -/
theorem post_cmd_no_separator_silent (request : String) (b i : List String)
    (rest : List String)
    (hparts : partsOf request = "POST" :: "/cmd" :: rest)
    (hsep : bodyAfterSep request.data = none) :
    handle_request request b i = { reply := none, serialCommands := [] }
    ∧ handle_request request b i = handle_request "BREW /pot HTTP/1.1" b i := by
  have h : handle_request request b i = { reply := none, serialCommands := [] } := by
    rw [handle_request, hparts]
    simp [hsep]
  exact ⟨h, by rw [h]; rfl⟩

/-- C10 witness: a truncated `POST /cmd` request with no separator is
silently dropped. -/
theorem post_cmd_no_separator_silent_witness :
    handle_request "POST /cmd HTTP/1.1" [] [] = { reply := none, serialCommands := [] } :=
  (post_cmd_no_separator_silent "POST /cmd HTTP/1.1" [] [] ["HTTP/1.1"]
    (by decide) (by decide)).1

/-- C1 counterexample: the claim's example line
`">>STATUS,1,93.4,108.0,42,heating"` does not parse to a status at all:
the code reads `parts[3]` (here `"108.0"`) as the integer duty cycle, so
the conversion raises and the line is skipped, and the CSV fallback on
the same line fails on `float(">>STATUS")`. -/
theorem parse_status_identifier_example_refuted :
    parse_status
      { success := true, response := [">>STATUS,1,93.4,108.0,42,heating"], error := none } =
      none := by
  decide

/-- C1 amended: the recognized STATUS format has no identifier slot —
counting the STATUS token itself as field 1, fields 2-5 map to
temperature (float), setpoint (float), duty_cycle (integer) and state
(text), so `">>STATUS,93.4,108.0,42,heating"` parses to
temperature 93.4, setpoint 108.0, duty_cycle 42, state `"heating"`
(and the claim's identifier-slot example parses to nothing). When no
STATUS-prefixed line parses, the last response line is tried as an
unprefixed 3-field CSV in the order temperature, duty_cycle, setpoint
with state `"unknown"`, and after that attempt the result is `none`. -/
theorem parse_status_amended_contract
    (line p0 t sp du st : String) (rest : List String) (tq spq : ℚ) (dz : ℤ)
    (hsw : (startsWithStr ">>STATUS" line || startsWithStr "STATUS" line) = true)
    (hparts : splitOnCharStr ',' (removeGtGt line) = p0 :: t :: sp :: du :: st :: rest)
    (ht : pyFloat t = some tq) (hsp : pyFloat sp = some spq) (hdu : pyInt du = some dz) :
    parse_status { success := true, response := [line], error := none } =
      some { temperature := tq, setpoint := spq, duty_cycle := dz, state := st, raw := line }
    ∧ parse_status { success := true, response := ["93.4,42,108.0"], error := none } =
      some { temperature := 467/5, setpoint := 108, duty_cycle := 42, state := "unknown",
             raw := "93.4,42,108.0" }
    ∧ parse_status { success := true, response := ["junk"], error := none } = none := by
  refine ⟨?_, ?_, by decide⟩
  · have hline : tryStatusLine line =
        some { temperature := tq, setpoint := spq, duty_cycle := dz, state := st, raw := line } := by
      rw [tryStatusLine, if_pos hsw]
      simp only [hparts]
      rw [if_pos (by simp only [List.length_cons]; omega)]
      simp [List.getD, ht, hsp, hdu]
    simp [parse_status, tryStatusLines, hline]
  · simp [parse_status, tryStatusLines, tryStatusLine, csvFallback, splitOnCharStr, splitOnChar,
      startsWithStr, isPrefixList, removeGtGt, removePairAll, pyFloat, pyFloatCore, pyInt,
      pyIntCore, digitsVal?, List.getD, List.getLast]
    norm_num

/-- C1 witness: the amended mapping at the concrete STATUS line without
an identifier slot. -/
theorem parse_status_amended_contract_witness :
    parse_status
      { success := true, response := [">>STATUS,93.4,108.0,42,heating"], error := none } =
      some { temperature := 467/5, setpoint := 108, duty_cycle := 42, state := "heating",
             raw := ">>STATUS,93.4,108.0,42,heating" } :=
  (parse_status_amended_contract ">>STATUS,93.4,108.0,42,heating" "STATUS" "93.4" "108.0" "42"
    "heating" [] (467/5) 108 42 (by decide) (by decide)
    (by simp [pyFloat, pyFloatCore, splitOnChar, digitsVal?]; norm_num)
    (by simp [pyFloat, pyFloatCore, splitOnChar, digitsVal?])
    (by decide)).1
